import Mathlib

/-!
Verification development for the lookaway-archive specimen-tank widget.

The file shallowly embeds the testable core of the repository:

* `tank-decay.js` — the lifecycle broadcaster (`tankDecay` object): the
  100 ms `update` loop, flicker entry (`triggerFlicker`), interaction
  `reset`, the observer list (`subscribe` / `notify`), `pause`,
  `resume` and `destroy`.
* `tank-beam.js` — the per-target collision classification performed
  inside `startCollisionDetection`'s polling callback.
* `tank-audio.js` (unnamed source) — the per-label cooldown logic of
  `integrateTankAudio`'s beam-interaction loop (`lastTextContact`).
* `tank-specimens.js` (two revisions, v3.1 and v3.2) — the specimen
  registry and `getPopupContent`.

Timestamps and geometry are modelled as rationals (`ℚ`), matching the
arithmetic the JavaScript performs on `Date.now()` values and
`getBoundingClientRect` coordinates (divisions by 2, 1000 and the cycle
length occur).  Audio cooldown timestamps are integers (`ℤ`), matching
`Date.now()`.  Observer callbacks are modelled as functions returning
`Except String Unit`: an `error` result stands for a thrown exception,
which the `notify` loop of the source catches and logs per callback.
-/

namespace LookawayTank

/-- The two stage strings the lifecycle controller ever assigns to
`this.stage` in `tank-decay.js`: the stable `'preservation'` stage and
the transient `'flicker'` stage. -/
inductive Stage where
  | preservation
  | flicker
deriving DecidableEq, Repr

/-- An observer callback registered with `tankDecay.subscribe`.  It
receives the current `(stage, progress)` pair; an `Except.error`
result models a thrown JavaScript exception. -/
abbrev TankListener : Type := Stage → ℚ → Except String Unit

/-- The mutable fields of the `tankDecay` singleton in `tank-decay.js`.
`timer` and `flickerTimer` hold interval ids (or `null`) in the source;
here a `Bool` records whether the corresponding interval is scheduled. -/
structure TankState where
  stage : Stage
  progress : ℚ
  lastInteraction : ℚ
  timer : Bool
  listeners : List TankListener
  flickerTimer : Bool
  isFlickering : Bool
  flickerStartTime : ℚ

/-- `TANK_CONFIG.timings.preservation` (both config revisions):
the 5-minute preservation cycle, in milliseconds. -/
def TANK_CONFIG_preservation : ℚ := 300000

/-- `TANK_CONFIG.timings.flicker` (both config revisions): the 10 s
flicker interval, in milliseconds. -/
def TANK_CONFIG_flicker : ℚ := 10000

/-- `tankDecay.update` (tank-decay.js lines 96–136).  `now` is the
value of `Date.now()` during the tick and `preservationDuration` the
configured `TANK_CONFIG.timings.preservation` cycle length.  In the
flicker branch progress is `min(flickerElapsed / 1000, 1.0)` and the
state reverts to preservation once progress reaches 1.0; in the normal
branch progress is `min(elapsed / preservationDuration, 1.0)` and the
baseline `lastInteraction` restarts once progress reaches 1.0. -/
def update (preservationDuration : ℚ) (now : ℚ) (s : TankState) : TankState :=
  if s.isFlickering then
    let flickerElapsed : ℚ := now - s.flickerStartTime
    let p : ℚ := min (flickerElapsed / 1000) 1
    if p ≥ 1 then
      { s with isFlickering := false, stage := Stage.preservation, progress := 0 }
    else
      { s with progress := p }
  else
    let elapsed : ℚ := now - s.lastInteraction
    let p : ℚ := min (elapsed / preservationDuration) 1
    if p ≥ 1 then
      { s with stage := Stage.preservation, progress := 0, lastInteraction := now }
    else
      { s with stage := Stage.preservation, progress := p }

/-- `tankDecay.triggerFlicker` (tank-decay.js lines 154–169): a no-op
while already flickering; otherwise enters the flicker stage with
progress 0 and records the entry time. -/
def triggerFlicker (now : ℚ) (s : TankState) : TankState :=
  if s.isFlickering then s
  else
    { s with isFlickering := true, flickerStartTime := now,
             stage := Stage.flicker, progress := 0 }

/-- `tankDecay.reset` (tank-decay.js lines 77–89): records the
interaction time, and if currently flickering returns immediately to
preservation with progress 0 (followed by a `notify`). -/
def reset (now : ℚ) (s : TankState) : TankState :=
  let s1 : TankState := { s with lastInteraction := now }
  if s1.isFlickering then
    { s1 with isFlickering := false, stage := Stage.preservation, progress := 0 }
  else s1

/-- An argument passed to `tankDecay.subscribe`: either a function
value (a callback) or some non-function JavaScript value, carried here
as the string the `console.error` diagnostic would describe. -/
inductive SubscribeArg where
  | fn (cb : TankListener)
  | notFn (v : String)

/-- `tankDecay.subscribe` (tank-decay.js lines 176–184): a function
argument is appended to the listener array; a non-function argument is
only logged and the state is left untouched. -/
def subscribe (s : TankState) (a : SubscribeArg) : TankState :=
  match a with
  | SubscribeArg.fn cb => { s with listeners := s.listeners ++ [cb] }
  | SubscribeArg.notFn _ => s

/-- The body of `tankDecay.notify` (tank-decay.js lines 186–196):
`listeners.forEach` with a `try`/`catch` around each callback.  The
first component collects, in registration order, the outcome of every
callback (the `catch` turns a thrown exception into a recorded
`error`); the second collects the per-observer `console.error` logs.
No exception escapes the loop and the iteration never stops early. -/
def notifyLoop (stage : Stage) (p : ℚ) : List TankListener → List (Except String Unit) × List String
  | [] => ([], [])
  | cb :: rest =>
    let r : Except String Unit := cb stage p
    let rec_ := notifyLoop stage p rest
    (r :: rec_.1,
      (match r with
       | Except.error e => [e]
       | Except.ok _ => []) ++ rec_.2)

/-- `tankDecay.notify` as a state transition: it reads
`(this.stage, this.progress)`, runs the listener loop, and leaves the
state of the controller (in particular the listener array) unchanged. -/
def notify (s : TankState) : TankState × (List (Except String Unit) × List String) :=
  (s, notifyLoop s.stage s.progress s.listeners)

/-- `tankDecay.pause` (tank-decay.js lines 217–229): clears whichever
of the two intervals is scheduled; nothing else changes. -/
def pause (s : TankState) : TankState :=
  let s1 : TankState := if s.timer then { s with timer := false } else s
  if s1.flickerTimer then { s1 with flickerTimer := false } else s1

/-- `tankDecay.resume` (tank-decay.js lines 231–241): restarts
whichever of the two intervals is not scheduled; nothing else changes
(no update and no flicker trigger run inside `resume` itself). -/
def resume (s : TankState) : TankState :=
  let s1 : TankState := if s.timer then s else { s with timer := true }
  if s1.flickerTimer then s1 else { s1 with flickerTimer := true }

/-- `tankDecay.destroy` (tank-decay.js lines 248–263): clears both
intervals, empties the listener array, and sets `stage` back to
`'preservation'` and `isFlickering` to `false`.  Note the source does
not touch `this.progress` or `this.lastInteraction`. -/
def destroy (s : TankState) : TankState :=
  let s1 : TankState := if s.timer then { s with timer := false } else s
  let s2 : TankState := if s1.flickerTimer then { s1 with flickerTimer := false } else s1
  { s2 with listeners := [], stage := Stage.preservation, isFlickering := false }

/-- The three-way classification the beam polling loop applies to one
target: `beam-contact` (plus `beam-approaching`), `beam-approaching`
only, or neither marker. -/
inductive BeamClass where
  | contact
  | approaching
  | idle
deriving DecidableEq, Repr

/-- The per-target body of `TankBeamModule.startCollisionDetection`
(tank-beam.js lines 149–202), for one poll tick.  Inputs are the beam
centre `beamY`, the scroll state (`scrollY`, `innerHeight`, viewport
`buffer`), and the target's `getBoundingClientRect` data (`top` and
`height`; `bottom = top + height`).  Returns `none` when the coarse
viewport prune skips the element for this tick, otherwise the
classification: `contact` when in padded bounds, `distance < 60` and
`distance < max(20, height/2)`; `approaching` when in padded bounds and
`distance < 60` but not in contact; `idle` otherwise. -/
def classifyTarget (beamY scrollY innerHeight buffer top height : ℚ) : Option BeamClass :=
  let elementTop : ℚ := top + scrollY
  let viewportTop : ℚ := scrollY - buffer
  let viewportBottom : ℚ := scrollY + innerHeight + buffer
  if elementTop < viewportTop ∨ elementTop > viewportBottom then none
  else
    let targetY : ℚ := top + height / 2
    let minHeight : ℚ := 40
    let effectiveHeight : ℚ := max height minHeight
    let padding : ℚ := (effectiveHeight - height) / 2
    let topBound : ℚ := top - padding
    let bottomBound : ℚ := (top + height) + padding
    let distance : ℚ := |beamY - targetY|
    if (topBound ≤ beamY ∧ beamY ≤ bottomBound) ∧ distance < 60 then
      if distance < max 20 (height / 2) then some BeamClass.contact
      else some BeamClass.approaching
    else some BeamClass.idle

/-- The per-label cooldown logic of `integrateTankAudio`'s beam
interaction loop (tank-audio.js, the `lastTextContact` map): given the
last-fired timestamp for a label (`0` when the map has no entry, via
`|| 0`) and the `Date.now()` values of the successive polls at which
the beam overlaps that label's element, returns the timestamps at which
the discrete audio trigger actually fires.  A poll fires exactly when
`now - lastTime > 1000`, and firing updates the stored timestamp. -/
def fireTimes (last : ℤ) : List ℤ → List ℤ
  | [] => []
  | t :: ts => if t - last > 1000 then t :: fireTimes t ts else fireTimes last ts

/-- RGB colour record of a specimen entry. -/
structure SpecimenColor where
  r : ℤ
  g : ℤ
  b : ℤ
deriving DecidableEq, Repr

/-- One entry of `SPECIMENS.registry` (tank-specimens.js).  The fields
are the ones read by the retrieval methods; `null` becomes `none`.
The purely presentational `behaviors`, `preview` and `metadata`
sub-tables are not read by any embedded operation and are omitted. -/
structure Specimen where
  id : ℤ
  code : String
  status : String
  deployed : Option String
  classif : Option String
  descr : Option String
  warning : Option String
  password : Option String
  color : SpecimenColor
  url : Option String
deriving DecidableEq, Repr

/-- One vacant slot of the registry, as generated by the
`Array(n).fill(null).map` expression for slot id `i`. -/
def emptySpecimen (i : ℤ) : Specimen :=
  { id := i, code := "[EMPTY]", status := "vacant", deployed := none,
    classif := none, descr := none, warning := none, password := none,
    color := { r := 80, g := 80, b := 80 }, url := none }

/-- `SPECIMENS.registry` of tank-specimens.js v3.1: slots 1–2 contain
LEAK-WORM-847T and LEAK-WORM-575E (both with the wave password),
slots 3–12 are vacant. -/
def registry_v31 : List Specimen :=
  [ { id := 1, code := "LEAK-WORM-847T", status := "contained",
      deployed := some "October 2025",
      classif := some "Interactive Narrative",
      descr := some "Explores quantum measurement paradox through Tlönian archaeological documentation. The organism exhibits temporal decay behaviors and responds to active observation. Contains Fragment 847-T from the Third Bureau of Reality Cartography.",
      warning := some "Specimen requires active observation to maintain stability. Neglect accelerates decay. Natural lifecycle: 32 seconds from birth to death without interaction. Ocean metamorphosis achievable through specific protocols.",
      password := some "\x7b🌊:🌊∈🌊\x7d",
      color := { r := 200, g := 165, b := 70 },
      url := some "/leak-worm-847t/" },
    { id := 2, code := "LEAK-WORM-575E", status := "contained",
      deployed := some "October 2025",
      classif := some "Interactive Narrative",
      descr := some "Investigates Earth power dynamics through temporal surveillance documentation. Contains Fragment 575E recording temporal consultation between [REDACTED] and Elizabeth I of England (Richmond Palace, May 1575). Explores circular feedback systems in political authority.",
      warning := some "Specimen contains classified temporal surveillance data. Subject exhibits pattern recognition behaviors across historical power structures. Natural lifecycle: 32 seconds from birth to death without interaction. Fragment includes unauthorized commentary from parasitic entities [CP: ...].",
      password := some "\x7b🌊:🌊∈🌊\x7d",
      color := { r := 200, g := 165, b := 70 },
      url := some "https://lookaway-archive.github.io/leak-worm-575E/" } ]
  ++ (List.range 10).map (fun i => emptySpecimen ((i : ℤ) + 3))

/-- `SPECIMENS.registry` of the v3.2 revision (unnamed source,
part_002): slots 1–3 contain LEAK-WORM-847T, LEAK-WORM-575E (password
dropped) and LEAK-WORM-EROI, slots 4–12 are vacant. -/
def registry_v32 : List Specimen :=
  [ { id := 1, code := "LEAK-WORM-847T", status := "contained",
      deployed := some "October 2025",
      classif := some "Interactive Narrative",
      descr := some "Explores quantum measurement paradox through Tlönian archaeological documentation. The organism exhibits temporal decay behaviors and responds to active observation. Contains Fragment 847-T from the Third Bureau of Reality Cartography.",
      warning := some "Specimen requires active observation to maintain stability. Neglect accelerates decay. Natural lifecycle: 32 seconds from birth to death without interaction. Ocean metamorphosis achievable through specific protocols.",
      password := some "\x7b🌊:🌊∈🌊\x7d",
      color := { r := 200, g := 165, b := 70 },
      url := some "/leak-worm-847t/" },
    { id := 2, code := "LEAK-WORM-575E", status := "contained",
      deployed := some "October 2025",
      classif := some "Interactive Narrative",
      descr := some "Investigates Earth power dynamics through temporal surveillance documentation. Contains Fragment 575E recording temporal consultation between [REDACTED] and Elizabeth I of England (Richmond Palace, May 1575). Explores circular feedback systems in political authority.",
      warning := some "Specimen contains classified temporal surveillance data. Subject exhibits pattern recognition behaviors across historical power structures. Natural lifecycle: 32 seconds from birth to death without interaction. Fragment includes unauthorized commentary from parasitic entities [CP: ...].",
      password := none,
      color := { r := 200, g := 165, b := 70 },
      url := some "https://lookaway-archive.github.io/leak-worm-575E/" },
    { id := 3, code := "LEAK-WORM-EROI", status := "contained",
      deployed := some "February 2026",
      classif := some "Visual Philosophy Document",
      descr := some "The specimen presents EROI — Energy Returned on Investment — as both ratio and trapped collector. References TRF-VIS-0042 from Art Theory Division.",
      warning := some "Specimen disguises philosophical argument as luxury advertisement. Natural lifecycle: 32 seconds from birth to death without interaction. No password required — entry is always available. Exit is the problem.",
      password := none,
      color := { r := 200, g := 165, b := 70 },
      url := some "https://lookaway-archive.github.io/leak-worm-EROI/" } ]
  ++ (List.range 9).map (fun i => emptySpecimen ((i : ℤ) + 4))

/-- One action button of the popup record built by `getPopupContent`. -/
structure PopupButton where
  text : String
  action : String
  primary : Bool
deriving DecidableEq, Repr

/-- The popup record returned by `SPECIMENS.getPopupContent` for a
non-vacant specimen. -/
structure PopupContent where
  title : String
  code : String
  status : String
  classif : Option String
  deployed : Option String
  descr : Option String
  warning : Option String
  password : Option String
  url : Option String
  buttons : List PopupButton
deriving DecidableEq, Repr

/-- `SPECIMENS.getById`: `registry.find(specimen => specimen.id === id)`. -/
def getById (registry : List Specimen) (id : ℤ) : Option Specimen :=
  registry.find? (fun sp => sp.id == id)

/-- `SPECIMENS.getPopupContent` (tank-specimens.js v3.1 lines 241–273
and v3.2 lines 280–312; both revisions have the identical body):
`null` for an unknown id or a vacant slot, otherwise the popup record.
The method only reads the registry; the second component returns the
registry the call leaves behind, which is the input unchanged. -/
def getPopupContent (registry : List Specimen) (id : ℤ) :
    Option PopupContent × List Specimen :=
  match getById registry id with
  | none => (none, registry)
  | some specimen =>
    if specimen.status == "vacant" then (none, registry)
    else
      (some { title := "SPECIMEN CONTAINMENT PROTOCOL",
              code := specimen.code,
              status := specimen.status.toUpper,
              classif := specimen.classif,
              deployed := specimen.deployed,
              descr := specimen.descr,
              warning := specimen.warning,
              password := specimen.password,
              url := specimen.url,
              buttons :=
                [ { text := "OBSERVE SPECIMEN", action := "navigate", primary := true },
                  { text := "CANCEL", action := "close", primary := false } ] },
       registry)

/-- A concrete steady (non-flickering) controller state, as after
`start()` at time 0 with no subscribers: stage preservation, progress
0, baseline 0, both intervals scheduled. -/
def exampleSteadyState : TankState :=
  { stage := Stage.preservation, progress := 0, lastInteraction := 0,
    timer := true, listeners := [], flickerTimer := true,
    isFlickering := false, flickerStartTime := 0 }

/-- A concrete mid-cycle state: steady with progress 1/2. -/
def exampleHalfProgressState : TankState :=
  { exampleSteadyState with progress := 1/2 }

/-- A concrete flickering state: the steady example state right after
`triggerFlicker` at time 0. -/
def exampleFlickerState : TankState :=
  { exampleSteadyState with isFlickering := true, stage := Stage.flicker,
                            progress := 0, flickerStartTime := 0 }

/-! Theorems. -/

/-- The contact threshold `max(20, height/2)` equals half the
effective height `max(height, 40)` used for the padded bounds. -/
lemma contact_threshold_eq_half_effective (height : ℚ) :
    max 20 (height / 2) = max height 40 / 2 := by
  rcases le_total height 40 with hc | hc
  · rw [max_eq_right hc, max_eq_left (by linarith : height / 2 ≤ 20)]
    norm_num
  · rw [max_eq_left hc, max_eq_right (by linarith : (20 : ℚ) ≤ height / 2)]

/-- A beam centre within the contact threshold of the target centre is
always inside the padded bounds of the target. -/
lemma contact_within_padded_bounds (beamY top height : ℚ)
    (h : |beamY - (top + height / 2)| < max 20 (height / 2)) :
    top - (max height 40 - height) / 2 ≤ beamY ∧
      beamY ≤ (top + height) + (max height 40 - height) / 2 := by
  rw [contact_threshold_eq_half_effective] at h
  rcases abs_lt.mp h with ⟨hlo, hhi⟩
  constructor <;> linarith

/-- C1, counterexample.  The claim classifies as contact exactly the
scan positions with `|scanY - center| < max(20, halfHeight)`; but for a
tall region (top 0, bottom 200, so half-height 100) a beam centre at 30
has distance 70 from the centre, which satisfies the claimed formula
yet the code classifies the region as idle, because the surrounding
check also requires `distance < 60`. -/
theorem beam_contact_iff_counterexample :
    classifyTarget 30 0 800 200 0 200 = some BeamClass.idle ∧
    |(30 : ℚ) - (0 + 200 / 2)| < max 20 ((200 - 0) / 2) := by
  constructor
  · norm_num [classifyTarget]
  · norm_num

/-- C1, amended.  For a target not pruned by the viewport check, the
poll classifies it as contact iff `|beamY - center| < max(20, height/2)`
and additionally `|beamY - center| < 60` (the approach gate the contact
branch is nested inside); the boundary `distance = threshold` remains
non-contact since both comparisons are strict. -/
theorem beam_contact_iff_with_approach_gate
    (beamY scrollY innerHeight buffer top height : ℚ)
    (hvis : ¬ (top + scrollY < scrollY - buffer ∨
               top + scrollY > scrollY + innerHeight + buffer)) :
    classifyTarget beamY scrollY innerHeight buffer top height =
        some BeamClass.contact ↔
      (|beamY - (top + height / 2)| < max 20 (height / 2) ∧
       |beamY - (top + height / 2)| < 60) := by
  simp only [classifyTarget]
  rw [if_neg hvis]
  split_ifs with hA hB
  · simp only [Option.some.injEq, true_iff, iff_true]
    exact ⟨hB, hA.2⟩
  · constructor
    · intro h; exact absurd h (by simp)
    · intro h; exact absurd h.1 hB
  · constructor
    · intro h; exact absurd h (by simp)
    · intro h
      exact absurd ⟨contact_within_padded_bounds beamY top height h.1, h.2⟩ hA

/-- Witness for the amended C1 theorem, at the end-to-end example of
the spec: top 100, height 40, beam centre 125 (distance 5) in an
unscrolled 800-pixel viewport with buffer 200. -/
theorem beam_contact_iff_with_approach_gate_witness :
    (¬ ((100 : ℚ) + 0 < 0 - 200 ∨ (100 : ℚ) + 0 > 0 + 800 + 200)) ∧
    (classifyTarget 125 0 800 200 100 40 = some BeamClass.contact ↔
      (|(125 : ℚ) - (100 + 40 / 2)| < max 20 (40 / 2) ∧
       |(125 : ℚ) - (100 + 40 / 2)| < 60)) :=
  ⟨by norm_num,
   beam_contact_iff_with_approach_gate 125 0 800 200 100 40 (by norm_num)⟩

/-- Every timestamp the cooldown logic fires is more than 1000 ms
after the stored last-fired timestamp it started from. -/
lemma fireTimes_mem_gt (ts : List ℤ) :
    ∀ (last : ℤ), ∀ x ∈ fireTimes last ts, 1000 < x - last := by
  induction ts with
  | nil =>
    intro last x hx
    simp [fireTimes] at hx
  | cons t ts ih =>
    intro last x hx
    by_cases h : t - last > 1000
    · simp only [fireTimes, if_pos h] at hx
      rcases List.mem_cons.mp hx with rfl | hx'
      · exact h
      · have := ih t x hx'
        omega
    · simp only [fireTimes, if_neg h] at hx
      exact ih last x hx

/-- Successive fire timestamps produced by the cooldown logic are
pairwise more than 1000 ms apart. -/
lemma fireTimes_pairwise (ts : List ℤ) :
    ∀ (last : ℤ), (fireTimes last ts).Pairwise (fun s t => 1000 < t - s) := by
  induction ts with
  | nil =>
    intro last
    simp [fireTimes]
  | cons t ts ih =>
    intro last
    by_cases h : t - last > 1000
    · simp only [fireTimes, if_pos h]
      exact List.pairwise_cons.mpr ⟨fun y hy => fireTimes_mem_gt ts t y hy, ih t⟩
    · simp only [fireTimes, if_neg h]
      exact ih last

/-- If every qualifying poll happens no later than `B`, then either no
trigger fires or the fire count `n` satisfies `last + 1000·n < B`. -/
lemma fireTimes_length_bound (ts : List ℤ) :
    ∀ (last B : ℤ), (∀ t ∈ ts, t ≤ B) →
      (fireTimes last ts).length = 0 ∨
        last + 1000 * ((fireTimes last ts).length : ℤ) < B := by
  induction ts with
  | nil =>
    intro last B _
    left
    simp [fireTimes]
  | cons t ts ih =>
    intro last B hB
    by_cases h : t - last > 1000
    · right
      have htB : t ≤ B := hB t (List.mem_cons_self t ts)
      have hrest : ∀ x ∈ ts, x ≤ B := fun x hx => hB x (List.mem_cons_of_mem t hx)
      rcases ih t B hrest with h0 | hlt
      · simp only [fireTimes, if_pos h, List.length_cons, h0]
        omega
      · simp only [fireTimes, if_pos h, List.length_cons]
        push_cast at hlt ⊢
        omega
    · simp only [fireTimes, if_neg h]
      exact ih last B (fun x hx => hB x (List.mem_cons_of_mem t hx))

/-- If every qualifying poll falls within a window of length 3000 ms,
the cooldown logic fires at most 3 triggers, whatever the stored
last-fired timestamp was. -/
lemma fireTimes_length_le_three (ts : List ℤ) :
    ∀ (last a : ℤ), (∀ t ∈ ts, a ≤ t ∧ t ≤ a + 3000) →
      (fireTimes last ts).length ≤ 3 := by
  induction ts with
  | nil =>
    intro last a _
    simp [fireTimes]
  | cons t ts ih =>
    intro last a hw
    by_cases h : t - last > 1000
    · have hta : a ≤ t := (hw t (List.mem_cons_self t ts)).1
      have hrest : ∀ x ∈ ts, x ≤ a + 3000 :=
        fun x hx => (hw x (List.mem_cons_of_mem t hx)).2
      rcases fireTimes_length_bound ts t (a + 3000) hrest with h0 | hlt
      · simp only [fireTimes, if_pos h, List.length_cons, h0]
        omega
      · simp only [fireTimes, if_pos h, List.length_cons]
        push_cast at hlt ⊢
        omega
    · simp only [fireTimes, if_neg h]
      exact ih last a (fun x hx => hw x (List.mem_cons_of_mem t hx))

/-- C2.  Discrete audio trigger events for a fixed label: any two fire
timestamps recorded by the `lastTextContact` cooldown logic are more
than 1000 ms apart, and when all qualifying polls (e.g. every 25 ms
during a 3000 ms continuous contact) fall within a 3000 ms window, at
most 3 triggers fire. -/
theorem cooldown_fires_spaced_and_bounded (last a : ℤ) (polls : List ℤ)
    (hwin : ∀ t ∈ polls, a ≤ t ∧ t ≤ a + 3000) :
    (fireTimes last polls).Pairwise (fun s t => 1000 < t - s) ∧
    (fireTimes last polls).length ≤ 3 :=
  ⟨fireTimes_pairwise polls last, fireTimes_length_le_three polls last a hwin⟩

/-- Witness for C2: a concrete 3000 ms contact window starting at time
10000 with polls every 25 ms would qualify; here the first, second,
43rd, 84th and 121st polls are listed and the bound is checked. -/
theorem cooldown_fires_spaced_and_bounded_witness :
    (∀ t ∈ ([10000, 10025, 11050, 12075, 13000] : List ℤ),
        (10000 : ℤ) ≤ t ∧ t ≤ 10000 + 3000) ∧
    ((fireTimes 0 [10000, 10025, 11050, 12075, 13000]).Pairwise
        (fun s t => 1000 < t - s) ∧
     (fireTimes 0 [10000, 10025, 11050, 12075, 13000]).length ≤ 3) :=
  ⟨by decide,
   cooldown_fires_spaced_and_bounded 0 10000 [10000, 10025, 11050, 12075, 13000]
     (by decide)⟩

/-- C3, counterexample.  The claim says the broadcast progress equals
`min(t/C, 1.0)` for every elapsed time `t` and only resets once it
would exceed 1.0; but the code resets as soon as progress reaches 1.0,
so at `t = C` (here `C = 300000`, the configured cycle) the tick
broadcasts progress 0 while `min(t/C, 1.0) = 1`. -/
theorem steady_progress_min_counterexample :
    (update TANK_CONFIG_preservation 300000 exampleSteadyState).progress = 0 ∧
    min ((300000 : ℚ) / TANK_CONFIG_preservation) 1 = 1 ∧ (0 : ℚ) ≠ 1 := by
  refine ⟨?_, ?_, by norm_num⟩
  · norm_num [update, exampleSteadyState, TANK_CONFIG_preservation]
  · norm_num [TANK_CONFIG_preservation]

/-- C3, amended.  In the steady state with baseline `t0` and cycle
length `C > 0`, a tick at elapsed time `t` broadcasts stage
preservation with progress `min(t/C, 1.0) = t/C` as long as `t < C`;
the instant `min(t/C, 1.0)` reaches 1.0 (that is, for every `t ≥ C`,
equality included, not only past it) the tick broadcasts progress 0 and
restarts the baseline at the current time, so the cycle free-runs and
never halts; the saturated value 1.0 itself is never broadcast. -/
theorem steady_progress_characterization (C t0 t : ℚ) (s : TankState)
    (hC : 0 < C) (hs : s.isFlickering = false)
    (hbase : s.lastInteraction = t0) :
    (update C (t0 + t) s).stage = Stage.preservation ∧
    (update C (t0 + t) s).isFlickering = false ∧
    (t < C → (update C (t0 + t) s).progress = t / C ∧
             (update C (t0 + t) s).lastInteraction = t0) ∧
    (C ≤ t → (update C (t0 + t) s).progress = 0 ∧
             (update C (t0 + t) s).lastInteraction = t0 + t) := by
  have he : t0 + t - s.lastInteraction = t := by rw [hbase]; ring
  simp only [update, hs, Bool.false_eq_true, if_false, he]
  by_cases hcap : min (t / C) 1 ≥ 1
  · have htC : C ≤ t := by
      have h1 : (1 : ℚ) ≤ t / C := le_trans hcap (min_le_left _ _)
      exact (one_le_div hC).mp h1
    rw [if_pos hcap]
    refine ⟨rfl, rfl, fun hlt => absurd htC (not_le.mpr hlt), fun _ => ⟨rfl, rfl⟩⟩
  · have htC : t < C := by
      by_contra hge
      exact hcap (le_min ((one_le_div hC).mpr (not_lt.mp hge)) le_rfl)
    rw [if_neg hcap]
    refine ⟨rfl, rfl, fun _ => ⟨?_, hbase⟩, fun hge => absurd htC (not_lt.mpr hge)⟩
    exact min_eq_left (le_of_lt ((div_lt_one hC).mpr htC))

/-- Witness for the amended C3 theorem: cycle 300000 ms, baseline 0,
tick at elapsed 150000 ms broadcasts progress 150000/300000 = 1/2. -/
theorem steady_progress_characterization_witness :
    ((0 : ℚ) < 300000 ∧ exampleSteadyState.isFlickering = false ∧
     exampleSteadyState.lastInteraction = 0 ∧ (150000 : ℚ) < 300000) ∧
    ((update 300000 (0 + 150000) exampleSteadyState).progress = 150000 / 300000 ∧
     (update 300000 (0 + 150000) exampleSteadyState).lastInteraction = 0) :=
  ⟨⟨by norm_num, rfl, rfl, by norm_num⟩,
   (steady_progress_characterization 300000 0 150000 exampleSteadyState
      (by norm_num) rfl rfl).2.2.1 (by norm_num)⟩

/-- C4.  A flicker entered at `t0` on a non-flickering controller
lasts exactly 1000 ms: every tick at elapsed `t < 1000` stays in the
flicker stage with progress `t/1000`, and every tick at elapsed
`t >= 1000` reverts to the preservation stage with progress 0. -/
theorem flicker_duration_exact (C t0 t : ℚ) (s : TankState)
    (hs : s.isFlickering = false) :
    (t < 1000 →
      (update C (t0 + t) (triggerFlicker t0 s)).stage = Stage.flicker ∧
      (update C (t0 + t) (triggerFlicker t0 s)).isFlickering = true ∧
      (update C (t0 + t) (triggerFlicker t0 s)).progress = t / 1000) ∧
    (1000 ≤ t →
      (update C (t0 + t) (triggerFlicker t0 s)).stage = Stage.preservation ∧
      (update C (t0 + t) (triggerFlicker t0 s)).isFlickering = false ∧
      (update C (t0 + t) (triggerFlicker t0 s)).progress = 0) := by
  have hTF : triggerFlicker t0 s =
      { s with isFlickering := true, flickerStartTime := t0,
               stage := Stage.flicker, progress := 0 } := by
    simp [triggerFlicker, hs]
  have he : t0 + t - t0 = t := by ring
  rw [hTF]
  simp only [update, he]
  by_cases hcap : min (t / 1000) 1 ≥ 1
  · have htC : (1000 : ℚ) ≤ t := by
      have h1 : (1 : ℚ) ≤ t / 1000 := le_trans hcap (min_le_left _ _)
      exact (one_le_div (by norm_num : (0 : ℚ) < 1000)).mp h1
    rw [if_pos hcap]
    exact ⟨fun hlt => absurd htC (not_le.mpr hlt), fun _ => ⟨rfl, rfl, rfl⟩⟩
  · have htC : t < 1000 := by
      by_contra hge
      exact hcap (le_min ((one_le_div (by norm_num : (0 : ℚ) < 1000)).mpr
        (not_lt.mp hge)) le_rfl)
    rw [if_neg hcap]
    refine ⟨fun _ => ⟨rfl, rfl, ?_⟩, fun hge => absurd htC (not_lt.mpr hge)⟩
    exact min_eq_left (le_of_lt ((div_lt_one (by norm_num : (0 : ℚ) < 1000)).mpr htC))

/-- Witness for C4: a flicker entered at time 0 has, at elapsed
exactly 1000 ms, reverted to preservation with progress 0. -/
theorem flicker_duration_exact_witness :
    (exampleSteadyState.isFlickering = false ∧ (1000 : ℚ) ≤ 1000) ∧
    ((update 300000 (0 + 1000) (triggerFlicker 0 exampleSteadyState)).stage =
        Stage.preservation ∧
     (update 300000 (0 + 1000) (triggerFlicker 0 exampleSteadyState)).isFlickering =
        false ∧
     (update 300000 (0 + 1000) (triggerFlicker 0 exampleSteadyState)).progress = 0) :=
  ⟨⟨rfl, by norm_num⟩,
   (flicker_duration_exact 300000 0 1000 exampleSteadyState rfl).2 (by norm_num)⟩

/-- The first component of the notify loop: every registered listener
is invoked, in registration order, with the broadcast pair — the
catch clause means an erroring listener never prevents the rest. -/
lemma notifyLoop_results (stage : Stage) (p : ℚ) (l : List TankListener) :
    (notifyLoop stage p l).1 = l.map (fun cb => cb stage p) := by
  induction l with
  | nil => rfl
  | cons cb rest ih => simp [notifyLoop, ih]

/-- The second component of the notify loop: the logged errors are
exactly the error outcomes among the invocation results, in order. -/
lemma notifyLoop_logs (stage : Stage) (p : ℚ) (l : List TankListener) :
    (notifyLoop stage p l).2 = (notifyLoop stage p l).1.filterMap
      (fun r => match r with
        | Except.error e => some e
        | Except.ok _ => none) := by
  induction l with
  | nil => rfl
  | cons cb rest ih =>
    cases hr : cb stage p <;>
      simp [notifyLoop, hr, ih, List.filterMap_cons]

/-- C5.  An interaction signal received while flickering immediately
forces the controller back to preservation with progress 0 (and resets
the steady-cycle baseline to the interaction time), so the very next
observer notification hands every listener the pair
(preservation, 0). -/
theorem reset_during_flicker_yields_steady_zero (now : ℚ) (s : TankState)
    (hs : s.isFlickering = true) :
    (reset now s).stage = Stage.preservation ∧
    (reset now s).progress = 0 ∧
    (reset now s).lastInteraction = now ∧
    (notify (reset now s)).2.1 =
      (reset now s).listeners.map (fun cb => cb Stage.preservation 0) := by
  have hr : reset now s =
      { s with lastInteraction := now, isFlickering := false,
               stage := Stage.preservation, progress := 0 } := by
    simp [reset, hs]
  rw [hr]
  exact ⟨rfl, rfl, rfl, notifyLoop_results Stage.preservation 0 s.listeners⟩

/-- Witness for C5 at a concrete flickering state and interaction
time 5. -/
theorem reset_during_flicker_yields_steady_zero_witness :
    (exampleFlickerState.isFlickering = true) ∧
    ((reset 5 exampleFlickerState).stage = Stage.preservation ∧
     (reset 5 exampleFlickerState).progress = 0 ∧
     (reset 5 exampleFlickerState).lastInteraction = 5 ∧
     (notify (reset 5 exampleFlickerState)).2.1 =
       (reset 5 exampleFlickerState).listeners.map
         (fun cb => cb Stage.preservation 0)) :=
  ⟨rfl, reset_during_flicker_yields_steady_zero 5 exampleFlickerState rfl⟩

/-- C6.  A notification pass invokes every registered observer, in
registration order, with the current (stage, progress) pair; a thrown
exception is caught and logged for that observer alone (the logged
errors are exactly the error outcomes, in order), the remaining
observers are still invoked (the result list covers every listener
position), and the listener list is unchanged afterwards, so a failing
observer stays registered. -/
theorem notify_invokes_all_in_order (s : TankState) :
    (notify s).2.1 = s.listeners.map (fun cb => cb s.stage s.progress) ∧
    (notify s).2.2 = (notify s).2.1.filterMap
      (fun r => match r with
        | Except.error e => some e
        | Except.ok _ => none) ∧
    (notify s).1.listeners = s.listeners :=
  ⟨notifyLoop_results s.stage s.progress s.listeners,
   notifyLoop_logs s.stage s.progress s.listeners,
   rfl⟩

/-- C7, counterexample.  Teardown does not reset the state to the
initial value: the initial state has progress 0, but destroy never
touches this.progress, so destroying a controller whose progress is
1/2 leaves progress 1/2. -/
theorem destroy_initial_state_counterexample :
    (destroy exampleHalfProgressState).progress = 1/2 ∧ ((1 : ℚ)/2 ≠ 0) := by
  constructor
  · norm_num [destroy, exampleHalfProgressState, exampleSteadyState]
  · norm_num

/-- C7, amended.  Teardown stops both timers, clears the observer
list, and resets the stage to preservation with the flicker flag
cleared, but it leaves the progress value (and the interaction
baseline) unchanged rather than resetting progress to the initial 0. -/
theorem destroy_effects (s : TankState) :
    (destroy s).timer = false ∧ (destroy s).flickerTimer = false ∧
    (destroy s).listeners = [] ∧ (destroy s).stage = Stage.preservation ∧
    (destroy s).isFlickering = false ∧ (destroy s).progress = s.progress ∧
    (destroy s).lastInteraction = s.lastInteraction := by
  simp only [destroy]
  split_ifs <;> simp_all

/-- C8.  Pausing clears both interval flags and changes nothing else
(observers, stage, progress, flicker flag and baseline are retained);
resuming right after restarts both intervals and likewise changes
nothing else — no transition is triggered and no progress is reset. -/
theorem pause_resume_preserves_state (s : TankState) :
    (pause s).timer = false ∧ (pause s).flickerTimer = false ∧
    (pause s).listeners = s.listeners ∧ (pause s).stage = s.stage ∧
    (pause s).progress = s.progress ∧
    (pause s).isFlickering = s.isFlickering ∧
    (pause s).lastInteraction = s.lastInteraction ∧
    (resume (pause s)).timer = true ∧
    (resume (pause s)).flickerTimer = true ∧
    (resume (pause s)).listeners = s.listeners ∧
    (resume (pause s)).stage = s.stage ∧
    (resume (pause s)).progress = s.progress ∧
    (resume (pause s)).isFlickering = s.isFlickering ∧
    (resume (pause s)).lastInteraction = s.lastInteraction ∧
    (resume (pause s)).flickerStartTime = s.flickerStartTime := by
  simp only [pause, resume]
  split_ifs <;> simp_all

/-- C9.  subscribe with a non-function argument is a no-op: the
controller state (in particular the observer list) is unchanged, so
the rejected argument is never invoked on any later notification
pass. -/
theorem subscribe_nonfunction_noop (s : TankState) (v : String) :
    subscribe s (SubscribeArg.notFn v) = s ∧
    (subscribe s (SubscribeArg.notFn v)).listeners = s.listeners ∧
    (notify (subscribe s (SubscribeArg.notFn v))).2.1 = (notify s).2.1 :=
  ⟨rfl, rfl, rfl⟩

/-- The second component of `getPopupContent` is always the input
registry: the call never mutates the registry. -/
lemma getPopupContent_registry_unchanged (registry : List Specimen) (id : ℤ) :
    (getPopupContent registry id).2 = registry := by
  unfold getPopupContent
  cases getById registry id with
  | none => rfl
  | some specimen =>
    by_cases h : specimen.status == "vacant" <;> simp [h]

/-- On a registry whose entries all have status contained or vacant
and whose ids are pairwise distinct, `getPopupContent` returns a popup
record exactly for the ids of contained specimens. -/
lemma getPopupContent_isSome_iff (registry : List Specimen) (id : ℤ)
    (hstatus : ∀ sp ∈ registry, sp.status = "contained" ∨ sp.status = "vacant")
    (hids : registry.Pairwise (fun a b => a.id ≠ b.id)) :
    (getPopupContent registry id).1.isSome = true ↔
      ∃ sp ∈ registry, sp.id = id ∧ sp.status = "contained" := by
  induction registry with
  | nil => simp [getPopupContent, getById]
  | cons sp rest ih =>
    rcases List.pairwise_cons.mp hids with ⟨hhead, htail⟩
    by_cases hid : sp.id = id
    · have hfind : getById (sp :: rest) id = some sp := by
        simp [getById, List.find?_cons, hid]
      rcases hstatus sp (List.mem_cons_self sp rest) with hc | hv
      · have : (getPopupContent (sp :: rest) id).1.isSome = true := by
          simp [getPopupContent, hfind, hc]
        simp only [this, true_iff]
        exact ⟨sp, List.mem_cons_self sp rest, hid, hc⟩
      · have hnone : (getPopupContent (sp :: rest) id).1.isSome = false := by
          simp [getPopupContent, hfind, hv]
        rw [hnone]
        constructor
        · intro h; cases h
        · rintro ⟨x, hx, hxid, hxc⟩
          rcases List.mem_cons.mp hx with rfl | hxr
          · rw [hxc] at hv
            exact absurd hv (by decide)
          · exact absurd (hid.trans hxid.symm) (hhead x hxr)
    · have hfind : getById (sp :: rest) id = getById rest id := by
        simp [getById, List.find?_cons, hid]
      have hfst : (getPopupContent (sp :: rest) id).1 =
          (getPopupContent rest id).1 := by
        unfold getPopupContent
        rw [hfind]
        cases getById rest id with
        | none => rfl
        | some specimen =>
          by_cases h : specimen.status == "vacant" <;> simp [h]
      rw [hfst]
      rw [ih (fun x hx => hstatus x (List.mem_cons_of_mem sp hx)) htail]
      constructor
      · rintro ⟨x, hx, hxid, hxc⟩
        exact ⟨x, List.mem_cons_of_mem sp hx, hxid, hxc⟩
      · rintro ⟨x, hx, hxid, hxc⟩
        rcases List.mem_cons.mp hx with rfl | hxr
        · exact absurd hxid hid
        · exact ⟨x, hxr, hxid, hxc⟩

/-- C10.  For both registry revisions and every id, `getPopupContent`
returns a popup record exactly when the registry contains a specimen
with that id whose status is contained; an unknown id or a vacant slot
yields null; and the registry is returned unmutated. -/
theorem getPopupContent_some_iff_contained (id : ℤ) :
    ((getPopupContent registry_v31 id).1.isSome = true ↔
      ∃ sp ∈ registry_v31, sp.id = id ∧ sp.status = "contained") ∧
    (getPopupContent registry_v31 id).2 = registry_v31 ∧
    ((getPopupContent registry_v32 id).1.isSome = true ↔
      ∃ sp ∈ registry_v32, sp.id = id ∧ sp.status = "contained") ∧
    (getPopupContent registry_v32 id).2 = registry_v32 :=
  ⟨getPopupContent_isSome_iff registry_v31 id (by decide) (by decide),
   getPopupContent_registry_unchanged registry_v31 id,
   getPopupContent_isSome_iff registry_v32 id (by decide) (by decide),
   getPopupContent_registry_unchanged registry_v32 id⟩

end LookawayTank
